import Mathlib

/-!
Shallow embedding of `pytorch_lightning/loops/fit_loop.py` (class `FitLoop`
and the module-level function `_select_data_fetcher`), together with
theorems settling the specification claims about it.

The embedding models the attributes of the trainer / epoch loop that the
`FitLoop` methods read and write as explicit record fields, and models the
side effects of the phase methods (`on_run_start`, `on_advance_end`,
`on_run_end`) as explicit event traces.  Python exceptions
(`MisconfigurationException`) are modelled with `Except String`.
-/

set_option autoImplicit false

namespace FitLoopModel

/-- The `current` sub-counter of `pytorch_lightning.trainer.progress.Progress`:
four non-negative integers tracking the phases of the outer epoch loop. -/
structure Current where
  ready : Nat
  started : Nat
  processed : Nat
  completed : Nat
  deriving Repr, DecidableEq

/-- Modelled from the spec: `_is_max_limit_reached` is imported from
`pytorch_lightning.loops.utilities`, whose source is not part of this
repository snapshot.  The spec describes its use as
`stopBySteps = maxSteps != -1 AND globalStepCount >= maxSteps` (and the same
shape for epochs), so the helper is `maximum != -1 and current >= maximum`. -/
def _is_max_limit_reached (current : Nat) (maximum : Int) : Bool :=
  maximum ≠ -1 && maximum ≤ (current : Int)

/-- Python truthiness of an `Optional[int]`: `None` and `0` are falsy. -/
def truthyOptNat : Option Nat → Bool
  | none => false
  | some n => n ≠ 0

/-- The attributes read and written by the property `FitLoop.done`
(`fit_loop.py` lines 163-187). `global_step` is `epoch_loop.global_step`,
`max_steps`/`min_steps` live on the epoch loop (the `FitLoop` properties
forward to it), `processed` is `epoch_progress.current.processed`,
`should_stop` is `trainer.should_stop` on entry, and
`num_training_batches` is `trainer.num_training_batches`. -/
structure DoneInput where
  global_step : Nat
  max_steps : Int
  processed : Nat
  max_epochs : Int
  min_epochs : Nat
  min_steps : Option Nat
  should_stop : Bool
  num_training_batches : Nat
  deriving Repr, DecidableEq

/-- Embedding of the property `FitLoop.done`.  Returns the pair
`(result, new trainer.should_stop)`: the property both computes the stop
decision and writes `should_stop` back onto the trainer
(`self.trainer.should_stop = should_stop`). -/
def done (s : DoneInput) : Bool × Bool :=
  let stop_steps := _is_max_limit_reached s.global_step s.max_steps
  let stop_epochs := _is_max_limit_reached s.processed s.max_epochs
  let should_stop :=
    if s.should_stop then
      let met_min_epochs :=
        if s.min_epochs ≠ 0 then decide (s.processed ≥ s.min_epochs) else true
      let met_min_steps :=
        if truthyOptNat s.min_steps then
          decide (s.global_step ≥ s.min_steps.getD 0)
        else true
      met_min_epochs && met_min_steps
    else false
  (stop_steps || should_stop || stop_epochs || decide (s.num_training_batches = 0),
    should_stop)

/-- The stop condition exactly as the claims state it: the early-stop
request contributes (is honored) when
`(minEpochs == 0 or processed >= minEpochs)` and
`(minSteps is unset/zero or global step >= minSteps)`. -/
def doneSpec (s : DoneInput) : Bool :=
  let stopBySteps := s.max_steps ≠ -1 && s.max_steps ≤ (s.global_step : Int)
  let stopByEpochs := s.max_epochs ≠ -1 && s.max_epochs ≤ (s.processed : Int)
  let metMinEpochs := s.min_epochs = 0 || s.processed ≥ s.min_epochs
  let metMinSteps :=
    match s.min_steps with
    | none => true
    | some m => m = 0 || decide (s.global_step ≥ m)
  let honoredStop := s.should_stop && metMinEpochs && metMinSteps
  stopBySteps || stopByEpochs || honoredStop || decide (s.num_training_batches = 0)

/-- The minimum-epochs guard as claim C2 words it. -/
def met_min_epochs (s : DoneInput) : Bool :=
  s.min_epochs = 0 || s.processed ≥ s.min_epochs

/-- The minimum-steps guard as claim C2 words it (`minSteps` unset or zero,
or the global step count has reached it). -/
def met_min_steps (s : DoneInput) : Bool :=
  match s.min_steps with
  | none => true
  | some m => m = 0 || decide (s.global_step ≥ m)

/-- Embedding of the `FitLoop.restarting` setter (`fit_loop.py` lines
124-137).  Returns the updated `epoch_progress.current` together with the
value stored by the parent setter (`Loop.restarting.fset`). -/
def restarting_set (cur : Current) (restarting : Bool) : Current × Bool :=
  let finished_before_on_train_end :=
    cur.ready ≠ cur.completed || cur.started ≠ cur.completed ||
      cur.processed ≠ cur.completed
  let cur' :=
    if finished_before_on_train_end then
      { cur with completed := cur.processed }
    else cur
  (cur', restarting && finished_before_on_train_end)

/-- The `finished_before_on_train_end` test of the `restarting` setter:
some phase counter differs from `completed`. -/
def finished_before_on_train_end (cur : Current) : Bool :=
  cur.ready ≠ cur.completed || cur.started ≠ cur.completed ||
    cur.processed ≠ cur.completed

/-- Whether an `Except` value is a success. -/
def exceptIsOk {ε α : Type} : Except ε α → Bool
  | Except.ok _ => true
  | Except.error _ => false

/-- The state produced by `FitLoop.__init__` that the claims are about
(`fit_loop.py` lines 50-68): the validated limits.  The sub-loops and the
fresh RunState fields are initialized there too but carry no data relevant
to construction-time validation. -/
structure FitLoopInit where
  min_epochs : Int
  max_epochs : Int
  deriving Repr, DecidableEq

/-- Embedding of `FitLoop.__init__`: raises `MisconfigurationException`
when `max_epochs < -1`, otherwise stores the limits. -/
def FitLoop_init (min_epochs : Int) (max_epochs : Int) : Except String FitLoopInit :=
  if max_epochs < -1 then
    Except.error ("max_epochs must be a non-negative integer or -1. You passed in "
      ++ toString max_epochs)
  else
    Except.ok { min_epochs := min_epochs, max_epochs := max_epochs }

/-- Embedding of the `FitLoop.max_steps` setter (`fit_loop.py` lines
103-117).  `none` models Python `None`.  On success returns the value
stored onto `epoch_loop.max_steps` together with whether a deprecation
warning was emitted; `Except.error` models the raised
`MisconfigurationException`, in which case no assignment happens. -/
def max_steps_set (value : Option Int) : Except String (Int × Bool) :=
  match value with
  | none => Except.ok (-1, true)
  | some v =>
    if v < -1 then
      Except.error ("max_steps must be a non-negative integer or -1 (infinite steps). You passed in "
        ++ toString v)
    else
      Except.ok (v, false)

/-- The stored `max_steps` after running the setter on a loop whose current
stored value is `cur`: the raise happens before the assignment, so an error
leaves the stored value unchanged. -/
def apply_max_steps_set (cur : Int) (value : Option Int) : Int :=
  match max_steps_set value with
  | Except.error _ => cur
  | Except.ok (v, _) => v

/-- The closed set of fetcher classes `_select_data_fetcher` can return. -/
inductive FetcherKind where
  | DataLoaderIterDataFetcher
  | InterBatchParallelDataFetcher
  | DataFetcher
  deriving Repr, DecidableEq

/-- The capabilities `_select_data_fetcher` inspects on the trainer:
whether `training_step` declares an explicit `dataloader_iter` parameter,
whether the `PL_INTER_BATCH_PARALLELISM` environment variable is `"1"`,
and whether `trainer.accelerator` is a `GPUAccelerator`. -/
structure FetcherCaps where
  dataloader_iter_explicit : Bool
  inter_batch_parallelism : Bool
  gpu_accelerator : Bool
  deriving Repr, DecidableEq

/-- Embedding of `_select_data_fetcher` (`fit_loop.py` lines 339-351).
On success returns the selected fetcher class and whether the experimental
`dataloader_iter` warning was emitted; `Except.error` models the raised
`MisconfigurationException`. -/
def _select_data_fetcher (c : FetcherCaps) : Except String (FetcherKind × Bool) :=
  if c.dataloader_iter_explicit then
    Except.ok (FetcherKind.DataLoaderIterDataFetcher, true)
  else if c.inter_batch_parallelism then
    if !c.gpu_accelerator then
      Except.error "Inter batch parallelism is available only when using Nvidia GPUs."
    else
      Except.ok (FetcherKind.InterBatchParallelDataFetcher, false)
  else
    Except.ok (FetcherKind.DataFetcher, false)

/-- Lifecycle hook targets: the callback set, the lightning module, the
strategy (matching `_call_callback_hooks`, `_call_lightning_module_hook`,
`_call_strategy_hook`). -/
inductive HookTarget where
  | callback
  | module
  | strategy
  deriving Repr, DecidableEq

/-- Observable effects performed by the `FitLoop` phase methods, in the
order they are executed. -/
inductive Event where
  | resetTrainValDataloaders
  | createDataFetcher
  | moveResultsToDevice
  | hook (target : HookTarget) (name : String)
  | loggerEpochEndReached
  | clearOutputs
  | incrementProcessed
  | loggerOnEpochEnd
  | updateLRSchedulers
  | incrementCompleted
  | updateTrainEpochMetrics (observed_batches_that_stepped : Int)
  | exitGracefullyOnSignal
  deriving Repr, DecidableEq

/-- The state read and written by `FitLoop.on_advance_end`
(`fit_loop.py` lines 270-317): the recorded epoch outputs (abstracted to a
list of opaque records), whether the module overrides `training_epoch_end`,
whether that hook would return `None` when invoked, the epoch progress
counter, `epoch_loop._batches_that_stepped`, and the cached result of
`epoch_loop._num_ready_batches_reached()`. -/
structure AdvanceEndState where
  outputs : List Nat
  training_epoch_end_overridden : Bool
  training_epoch_end_returns_none : Bool
  current : Current
  batches_that_stepped : Int
  num_ready_batches_reached : Bool
  deriving Repr, DecidableEq

/-- The transient step-counter correction around the epoch-level metric
update (`fit_loop.py` lines 309-314): decrement
`epoch_loop._batches_that_stepped`, call
`update_train_epoch_metrics` (which observes the decremented value),
re-increment.  Returns the state after the block and the metric-update
event recording the observed counter value. -/
def epoch_metrics_block (s : AdvanceEndState) : AdvanceEndState × Event :=
  let s1 := { s with batches_that_stepped := s.batches_that_stepped - 1 }
  let ev := Event.updateTrainEpochMetrics s1.batches_that_stepped
  let s2 := { s1 with batches_that_stepped := s1.batches_that_stepped + 1 }
  (s2, ev)

/-- Embedding of `FitLoop.on_advance_end` (`fit_loop.py` lines 270-317).
Returns the trace of events executed before any exception, and either the
raised `MisconfigurationException` (when `training_epoch_end` is invoked
and returns a non-None value) or the resulting state. -/
def on_advance_end (s : AdvanceEndState) :
    List Event × Except String AdvanceEndState :=
  let hook_invoked := s.training_epoch_end_overridden && !s.outputs.isEmpty
  let pre := Event.loggerEpochEndReached ::
    (if hook_invoked then [Event.hook HookTarget.module "training_epoch_end"] else [])
  if hook_invoked && !s.training_epoch_end_returns_none then
    (pre, Except.error "training_epoch_end expects a return of None.")
  else
    let s_cleared := { s with outputs := [] }
    let s_processed :=
      { s_cleared with current :=
        { s_cleared.current with processed := s_cleared.current.processed + 1 } }
    let s_completed :=
      { s_processed with current :=
        { s_processed.current with completed := s_processed.current.completed + 1 } }
    let metrics := epoch_metrics_block s_completed
    (pre ++
      [Event.clearOutputs, Event.incrementProcessed,
        Event.hook HookTarget.callback "on_train_epoch_end",
        Event.hook HookTarget.module "on_train_epoch_end",
        Event.hook HookTarget.callback "on_epoch_end",
        Event.hook HookTarget.module "on_epoch_end",
        Event.loggerOnEpochEnd] ++
      (if s.num_ready_batches_reached then [Event.updateLRSchedulers] else []) ++
      [Event.incrementCompleted, metrics.2, Event.exitGracefullyOnSignal],
      Except.ok metrics.1)

/-- Embedding of `FitLoop.on_run_start` (`fit_loop.py` lines 205-218): it
resets the dataloaders, selects and constructs the data fetcher (which may
raise), moves results to the device, then calls the `on_train_start` hooks
on the callbacks, the lightning module and the strategy, in that order. -/
def on_run_start (c : FetcherCaps) : List Event × Except String Unit :=
  match _select_data_fetcher c with
  | Except.error e => ([Event.resetTrainValDataloaders], Except.error e)
  | Except.ok _ =>
    ([Event.resetTrainValDataloaders, Event.createDataFetcher,
      Event.moveResultsToDevice,
      Event.hook HookTarget.callback "on_train_start",
      Event.hook HookTarget.module "on_train_start",
      Event.hook HookTarget.strategy "on_train_start"],
      Except.ok ())

/-- Embedding of `FitLoop.on_run_end` (`fit_loop.py` lines 319-326): the
`on_train_end` hooks on the callbacks, the lightning module and the
strategy, in that order. -/
def on_run_end : List Event :=
  [Event.hook HookTarget.callback "on_train_end",
    Event.hook HookTarget.module "on_train_end",
    Event.hook HookTarget.strategy "on_train_end"]

/-- Whether an event is an invocation of a hook with the given name. -/
def isHookNamed (name : String) : Event → Bool
  | Event.hook _ n => n = name
  | _ => false

/-! ### Helper lemmas -/

/-- The `should_stop` value written back by `done` equals the early-stop
request conjoined with the two minimum-duration guards. -/
theorem done_snd_eq (s : DoneInput) :
    (done s).2 = (s.should_stop && (met_min_epochs s && met_min_steps s)) := by
  rcases s with ⟨g, maxS, p, maxE, minE, minS, ss, nb⟩
  cases ss
  · simp [done, met_min_epochs, met_min_steps]
  · rcases minS with _ | m
    · by_cases hE : minE = 0 <;>
        simp [done, met_min_epochs, met_min_steps, truthyOptNat, hE]
    · by_cases hE : minE = 0 <;> by_cases hm : m = 0 <;>
        simp [done, met_min_epochs, met_min_steps, truthyOptNat, hE, hm]

/-- The result of `done` as a disjunction involving the written-back
`should_stop`. -/
theorem done_fst_eq (s : DoneInput) :
    (done s).1 = (_is_max_limit_reached s.global_step s.max_steps || (done s).2 ||
      _is_max_limit_reached s.processed s.max_epochs ||
      decide (s.num_training_batches = 0)) := rfl

/-- Rearranging a four-way boolean disjunction. -/
theorem or4_swap (a b c z : Bool) : (a || c || b || z) = (a || b || c || z) := by
  cases a <;> cases b <;> cases c <;> cases z <;> rfl

/-! ### Claim theorems -/

/-- C1: for every state, `done` returns true if and only if
(`maxSteps != -1` and the global step count has reached `maxSteps`) OR
(`maxEpochs != -1` and `current.processed` has reached `maxEpochs`) OR the
early-stop request is honored OR the number of training batches is zero. -/
theorem done_matches_spec (s : DoneInput) : (done s).1 = doneSpec s := by
  rw [done_fst_eq, done_snd_eq]
  show _ = doneSpec s
  unfold doneSpec
  rw [← Bool.and_assoc]
  exact or4_swap _ _ _ _

/-- C2: when the external stop flag is raised on entry to `done`: if both
minimum-duration guards are met the stop is honored (the written-back flag
is true and the result is true); otherwise the flag is cleared to false and
the result reduces to the remaining stop conditions. -/
theorem done_early_stop_guard (s : DoneInput) (h : s.should_stop = true) :
    ((met_min_epochs s && met_min_steps s) = true →
      (done s).2 = true ∧ (done s).1 = true) ∧
    ((met_min_epochs s && met_min_steps s) = false →
      (done s).2 = false ∧
      (done s).1 = (_is_max_limit_reached s.global_step s.max_steps ||
        _is_max_limit_reached s.processed s.max_epochs ||
        decide (s.num_training_batches = 0))) := by
  constructor
  · intro hm
    have h2 : (done s).2 = true := by rw [done_snd_eq, h, hm]; rfl
    refine ⟨h2, ?_⟩
    rw [done_fst_eq, h2]
    simp
  · intro hm
    have h2 : (done s).2 = false := by rw [done_snd_eq, h, hm]; rfl
    refine ⟨h2, ?_⟩
    rw [done_fst_eq, h2]
    simp

/-- Witness for C2 at a concrete state: stop requested with both minimums
met (`processed = 2 ≥ min_epochs = 2`, `global_step = 5 ≥ min_steps = 5`),
so the stop is honored. -/
theorem done_early_stop_guard_witness :
    (done ⟨5, -1, 2, -1, 2, some 5, true, 10⟩).2 = true ∧
    (done ⟨5, -1, 2, -1, 2, some 5, true, 10⟩).1 = true :=
  (done_early_stop_guard ⟨5, -1, 2, -1, 2, some 5, true, 10⟩ rfl).1 (by decide)

/-- C3 counterexample: on the interrupted state
`ready = started = processed = 1, completed = 0`, the `restarting` setter
advances `completed` to 1 but the stored restarting flag is true, not false
as the claim states. -/
theorem restarting_claim_flag_counterexample :
    ¬ ((restarting_set ⟨1, 1, 1, 0⟩ true).1.completed = 1 ∧
      (restarting_set ⟨1, 1, 1, 0⟩ true).2 = false) := by decide

/-- C3 amended: on a counter with `ready = started = processed = N` and
`completed = N - 1` (run interrupted after processing but before the
terminal hook), the restart reconciliation yields `completed = N` and the
stored restarting flag is true (the restart is treated as genuine). -/
theorem restarting_reconciliation_interrupted (N : Nat) (h : 1 ≤ N) :
    (restarting_set ⟨N, N, N, N - 1⟩ true).1.completed = N ∧
    (restarting_set ⟨N, N, N, N - 1⟩ true).2 = true := by
  have hne : N ≠ N - 1 := by omega
  constructor <;> simp [restarting_set, hne]

/-- Witness for the amended C3 at `N = 3`. -/
theorem restarting_reconciliation_interrupted_witness :
    (restarting_set ⟨3, 3, 3, 3 - 1⟩ true).1.completed = 3 ∧
    (restarting_set ⟨3, 3, 3, 3 - 1⟩ true).2 = true :=
  restarting_reconciliation_interrupted 3 (by decide)

/-- C4: the `restarting` setter sets `current.completed` to
`current.processed` exactly when one of `ready`, `started`, `processed`
differs from `completed`, leaves the other three fields unchanged, and
stores the incoming flag conjoined with that genuine-interruption test (so
the flag is forced to false when all four counters already agree). -/
theorem restarting_set_reconciliation (cur : Current) (r : Bool) :
    (restarting_set cur r).1.completed =
      (if finished_before_on_train_end cur then cur.processed
        else cur.completed) ∧
    (restarting_set cur r).1.ready = cur.ready ∧
    (restarting_set cur r).1.started = cur.started ∧
    (restarting_set cur r).1.processed = cur.processed ∧
    (restarting_set cur r).2 = (r && finished_before_on_train_end cur) := by
  rcases cur with ⟨rd, st, pr, co⟩
  by_cases h1 : rd = co <;> by_cases h2 : st = co <;> by_cases h3 : pr = co <;>
    simp [restarting_set, finished_before_on_train_end, h1, h2, h3]

/-- C5: fetcher selection is a deterministic function of the capabilities,
in priority order: explicit `dataloader_iter` parameter gives the
iterator-passthrough fetcher with the experimental warning; else the
inter-batch-parallelism flag with a non-GPU accelerator raises a
configuration error; else that flag with a GPU accelerator gives the
parallel-prefetch fetcher; else the default single-batch fetcher. -/
theorem select_data_fetcher_policy (c : FetcherCaps) :
    (c.dataloader_iter_explicit = true →
      _select_data_fetcher c =
        Except.ok (FetcherKind.DataLoaderIterDataFetcher, true)) ∧
    (c.dataloader_iter_explicit = false → c.inter_batch_parallelism = true →
      c.gpu_accelerator = false →
      _select_data_fetcher c =
        Except.error "Inter batch parallelism is available only when using Nvidia GPUs.") ∧
    (c.dataloader_iter_explicit = false → c.inter_batch_parallelism = true →
      c.gpu_accelerator = true →
      _select_data_fetcher c =
        Except.ok (FetcherKind.InterBatchParallelDataFetcher, false)) ∧
    (c.dataloader_iter_explicit = false → c.inter_batch_parallelism = false →
      _select_data_fetcher c = Except.ok (FetcherKind.DataFetcher, false)) := by
  rcases c with ⟨d, i, g⟩
  cases d <;> cases i <;> cases g <;> simp [_select_data_fetcher]

/-- Witness for C5: a `training_step` with an explicit `dataloader_iter`
parameter selects the iterator-passthrough fetcher and warns. -/
theorem select_data_fetcher_policy_witness :
    _select_data_fetcher ⟨true, false, false⟩ =
      Except.ok (FetcherKind.DataLoaderIterDataFetcher, true) :=
  (select_data_fetcher_policy ⟨true, false, false⟩).1 rfl

/-- C6: constructing with `max_epochs < -1` raises a configuration error
and produces no state; any `max_epochs ≥ -1` is accepted; setting
`max_steps` to an integer `< -1` raises and leaves the stored value
unchanged; any integer `≥ -1` is stored. -/
theorem limit_validation (minE maxE v cur : Int) :
    (maxE < -1 → exceptIsOk (FitLoop_init minE maxE) = false) ∧
    (-1 ≤ maxE → FitLoop_init minE maxE =
      Except.ok { min_epochs := minE, max_epochs := maxE }) ∧
    (v < -1 → exceptIsOk (max_steps_set (some v)) = false ∧
      apply_max_steps_set cur (some v) = cur) ∧
    (-1 ≤ v → max_steps_set (some v) = Except.ok (v, false)) := by
  refine ⟨?_, ?_, ?_, ?_⟩
  · intro h
    simp only [FitLoop_init]
    rw [if_pos h]
    rfl
  · intro h
    simp only [FitLoop_init]
    rw [if_neg (by omega)]
  · intro h
    simp only [max_steps_set, apply_max_steps_set]
    rw [if_pos h]
    exact ⟨rfl, rfl⟩
  · intro h
    simp only [max_steps_set]
    rw [if_neg (by omega)]

/-- Witness for C6: `max_epochs = -2` is rejected, `max_epochs = 5` is
accepted, setting `max_steps = -5` is rejected leaving the stored value 7,
and `max_steps = 5` is accepted. -/
theorem limit_validation_witness :
    exceptIsOk (FitLoop_init 0 (-2)) = false ∧
    FitLoop_init 0 5 = Except.ok { min_epochs := 0, max_epochs := 5 } ∧
    exceptIsOk (max_steps_set (some (-5))) = false ∧
    apply_max_steps_set 7 (some (-5)) = 7 ∧
    max_steps_set (some 5) = Except.ok (5, false) :=
  ⟨(limit_validation 0 (-2) (-5) 7).1 (by decide),
    (limit_validation 0 5 (-5) 7).2.1 (by decide),
    ((limit_validation 0 (-2) (-5) 7).2.2.1 (by decide)).1,
    ((limit_validation 0 (-2) (-5) 7).2.2.1 (by decide)).2,
    (limit_validation 0 (-2) 5 7).2.2.2 (by decide)⟩

/-- C10: setting `max_steps` to `None` raises no error: it emits the
deprecation warning and stores `-1`, so a subsequent read returns `-1`;
only integers strictly below `-1` are rejected. -/
theorem max_steps_none_deprecation (cur v : Int) :
    max_steps_set none = Except.ok (-1, true) ∧
    apply_max_steps_set cur none = -1 ∧
    (-1 ≤ v → exceptIsOk (max_steps_set (some v)) = true) ∧
    (v < -1 → exceptIsOk (max_steps_set (some v)) = false) := by
  refine ⟨rfl, rfl, ?_, ?_⟩
  · intro h
    simp only [max_steps_set]
    rw [if_neg (by omega)]
    rfl
  · intro h
    simp only [max_steps_set]
    rw [if_pos h]
    rfl

/-- Witness for C10 at `cur = 7`, `v = 0`: `None` stores `-1` with the
deprecation warning, `0` is accepted. -/
theorem max_steps_none_deprecation_witness :
    max_steps_set none = Except.ok (-1, true) ∧
    apply_max_steps_set 7 none = -1 ∧
    exceptIsOk (max_steps_set (some 0)) = true :=
  ⟨(max_steps_none_deprecation 7 0).1, (max_steps_none_deprecation 7 0).2.1,
    (max_steps_none_deprecation 7 0).2.2.1 (by decide)⟩

/-- C7: in `on_advance_end`, the `training_epoch_end` hook is invoked if
and only if the module overrides it and the recorded outputs are
non-empty; if the invoked hook returns a non-None value a configuration
error is raised; on the non-error path the outputs end up cleared to the
empty sequence, and in the execution trace the clearing precedes the
processed increment. -/
theorem training_epoch_end_contract (s : AdvanceEndState) :
    (Event.hook HookTarget.module "training_epoch_end" ∈ (on_advance_end s).1 ↔
      (s.training_epoch_end_overridden = true ∧ s.outputs ≠ [])) ∧
    (s.training_epoch_end_overridden = true → s.outputs ≠ [] →
      s.training_epoch_end_returns_none = false →
      (on_advance_end s).2 =
        Except.error "training_epoch_end expects a return of None.") ∧
    (∀ s2 : AdvanceEndState, (on_advance_end s).2 = Except.ok s2 →
      s2.outputs = [] ∧
      ∃ l1 l2, (on_advance_end s).1 =
        l1 ++ Event.clearOutputs :: Event.incrementProcessed :: l2) := by
  rcases s with ⟨outs, ov, ret, cur, bts, nrb⟩
  cases ov <;> rcases outs with _ | ⟨o, os⟩ <;> cases ret <;>
    simp [on_advance_end, epoch_metrics_block] <;>
    first
      | exact ⟨[Event.loggerEpochEndReached], _, rfl⟩
      | exact ⟨[Event.loggerEpochEndReached,
          Event.hook HookTarget.module "training_epoch_end"], _, rfl⟩

/-- Witness for C7: an overridden `training_epoch_end` with one recorded
output returning a non-None value raises the configuration error. -/
theorem training_epoch_end_contract_witness :
    (on_advance_end ⟨[1], true, false, ⟨0, 0, 0, 0⟩, 5, false⟩).2 =
      Except.error "training_epoch_end expects a return of None." :=
  (training_epoch_end_contract ⟨[1], true, false, ⟨0, 0, 0, 0⟩, 5, false⟩).2.1
    rfl (by decide) rfl

/-- C8: the run-start phase invokes the `on_train_start` hooks in the
fixed order callback set, module, strategy, and the run-end phase invokes
the `on_train_end` hooks in that same order; no other order of these
invocations occurs in their traces. -/
theorem run_hooks_order (c : FetcherCaps)
    (h : exceptIsOk (on_run_start c).2 = true) :
    (on_run_start c).1.filter (isHookNamed "on_train_start") =
      [Event.hook HookTarget.callback "on_train_start",
        Event.hook HookTarget.module "on_train_start",
        Event.hook HookTarget.strategy "on_train_start"] ∧
    on_run_end.filter (isHookNamed "on_train_end") =
      [Event.hook HookTarget.callback "on_train_end",
        Event.hook HookTarget.module "on_train_end",
        Event.hook HookTarget.strategy "on_train_end"] := by
  rcases c with ⟨d, i, g⟩
  cases d <;> cases i <;> cases g <;>
    first
      | exact absurd h (by decide)
      | exact ⟨by decide, by decide⟩

/-- Witness for C8 with default capabilities (no `dataloader_iter`
parameter, no inter-batch parallelism). -/
theorem run_hooks_order_witness :
    (on_run_start ⟨false, false, false⟩).1.filter (isHookNamed "on_train_start") =
      [Event.hook HookTarget.callback "on_train_start",
        Event.hook HookTarget.module "on_train_start",
        Event.hook HookTarget.strategy "on_train_start"] ∧
    on_run_end.filter (isHookNamed "on_train_end") =
      [Event.hook HookTarget.callback "on_train_end",
        Event.hook HookTarget.module "on_train_end",
        Event.hook HookTarget.strategy "on_train_end"] :=
  run_hooks_order ⟨false, false, false⟩ (by decide)

/-- C9: the transient correction block decrements
`_batches_that_stepped` by one for the epoch-level metric update (which
observes the input value minus one), re-increments it, and modifies no
other field (the state after the block equals the state before it); on the
non-error path of `on_advance_end` the metric update observes the input
counter minus one while the resulting counter equals the input. -/
theorem step_counter_correction (s : AdvanceEndState) :
    (epoch_metrics_block s).2 =
      Event.updateTrainEpochMetrics (s.batches_that_stepped - 1) ∧
    (epoch_metrics_block s).1 = s ∧
    (∀ s2 : AdvanceEndState, (on_advance_end s).2 = Except.ok s2 →
      s2.batches_that_stepped = s.batches_that_stepped ∧
      Event.updateTrainEpochMetrics (s.batches_that_stepped - 1) ∈
        (on_advance_end s).1) := by
  rcases s with ⟨outs, ov, ret, cur, bts, nrb⟩
  refine ⟨rfl, ?_, ?_⟩
  · simp [epoch_metrics_block]
  · cases ov <;> rcases outs with _ | ⟨o, os⟩ <;> cases ret <;>
      simp [on_advance_end, epoch_metrics_block]

/-- Witness for C9: a state with counter 5 and no hook override; the
resulting counter is 5 and the metric update observed 4. -/
theorem step_counter_correction_witness :
    (⟨[], false, true, ⟨0, 0, 1, 1⟩, 5, false⟩ :
      AdvanceEndState).batches_that_stepped = 5 ∧
    Event.updateTrainEpochMetrics (5 - 1) ∈
      (on_advance_end ⟨[], false, true, ⟨0, 0, 0, 0⟩, 5, false⟩).1 :=
  (step_counter_correction ⟨[], false, true, ⟨0, 0, 0, 0⟩, 5, false⟩).2.2
    ⟨[], false, true, ⟨0, 0, 1, 1⟩, 5, false⟩ rfl

end FitLoopModel
